import Mathlib

/-!
Shallow embedding of the wake-on-connect game-server orchestrator
(control plane lifecycle/billing, container orchestration primitives,
wake-on-connect proxy) together with proofs about its behaviour.

Python floats holding credit balances are modelled as rationals; machine
time stamps are natural numbers; external effects (docker engine calls,
HTTP calls) are modelled by explicit state or by boolean/Except-valued
oracles passed as arguments.
-/

namespace Gassorp

/-! ### Proxy service environment (src/proxy_service/main.py, lines 14-25)

`os.getenv` returns `None` for an unset variable; Python truthiness treats
both `None` and the empty string as falsy in `all([...])`. -/

abbrev Env := List (String × String)

def getenv (env : Env) (key : String) : Option String :=
  (env.find? (fun kv => kv.1 == key)).map (fun kv => kv.2)

def getenvD (env : Env) (key dflt : String) : String :=
  (getenv env key).getD dflt

def truthy : Option String → Bool
  | none => false
  | some s => s != ""

/-- Python `int(...)` on a decimal string (the only shapes the deployment
code passes); a non-numeric string raises `ValueError`, modelled as `none`. -/
def digitVal? (c : Char) : Option Nat :=
  if c.isDigit then some (c.toNat - 48) else none

def parseNatAux : List Char → Nat → Option Nat
  | [], acc => some acc
  | c :: cs, acc =>
    match digitVal? c with
    | none => none
    | some d => parseNatAux cs (acc * 10 + d)

def parseNat? (s : String) : Option Nat :=
  match s.data with
  | [] => none
  | l => parseNatAux l 0

structure ProxyConfig where
  targetHost : String
  targetPort : Nat
  backendWebhookUrl : String
  serverId : String
  webhookToken : String
  protocol : String
  listenPort : Nat
  holdTimeoutCfg : Nat
  retryIntervalCfg : Nat
deriving DecidableEq, Repr

/-- Module-level configuration load of the proxy service.  The integer
conversions (`int(os.getenv(...))`) run first; a non-numeric value raises
and the process refuses to start (`none`).  Then
`if not all([BACKEND_WEBHOOK_URL, SERVER_ID, WEBHOOK_TOKEN]): raise ValueError`
checks only those three variables; `TARGET_HOST` and `TARGET_PORT` are read
with defaults `"localhost"` and `"25565"` and are never validated. -/
def loadProxyConfig (env : Env) : Option ProxyConfig := do
  let targetPort ← parseNat? (getenvD env "TARGET_PORT" "25565")
  let listenPort ← parseNat? (getenvD env "LISTEN_PORT" "25565")
  let holdT ← parseNat? (getenvD env "HOLD_TIMEOUT" "60")
  let retryI ← parseNat? (getenvD env "RETRY_INTERVAL" "2")
  if truthy (getenv env "BACKEND_WEBHOOK_URL")
      && truthy (getenv env "SERVER_ID")
      && truthy (getenv env "WEBHOOK_TOKEN") then
    some
      { targetHost := getenvD env "TARGET_HOST" "localhost"
        targetPort := targetPort
        backendWebhookUrl := (getenv env "BACKEND_WEBHOOK_URL").getD ""
        serverId := (getenv env "SERVER_ID").getD ""
        webhookToken := (getenv env "WEBHOOK_TOKEN").getD ""
        protocol := getenvD env "PROTOCOL" "tcp"
        listenPort := listenPort
        holdTimeoutCfg := holdT
        retryIntervalCfg := retryI }
  else
    none

/-- An environment where the three checked variables are present but the
target variables are absent entirely. -/
def envNoTarget : Env :=
  [("BACKEND_WEBHOOK_URL", "http://backend/api/webhook/wake"),
   ("SERVER_ID", "1"),
   ("WEBHOOK_TOKEN", "sekrit")]

/-! ### Container stats (src/services/docker_manager.py get_container_stats,
src/node-agent/app/core/docker_manager.py get_container_stats,
src/backend/app/services/node_client.py get_server_stats) -/

structure RawStats where
  cpuTotal : Int
  precpuTotal : Int
  systemCpu : Int
  presystemCpu : Int
  memUsage : Option Nat
  memLimit : Option Nat
deriving DecidableEq, Repr

structure ContainerStats where
  cpuPercent : ℚ
  memoryPercent : ℚ
  memoryUsedMb : ℚ
  status : String
deriving DecidableEq, Repr

/-- Python `round(x, 2)` modelled arithmetically. -/
def round2 (q : ℚ) : ℚ := (round (q * 100) : ℤ) / 100

/-- The dict `{'cpu_percent': 0, 'memory_percent': 0, 'memory_used_mb': 0, 'status': 'unknown'}`. -/
def unknownStats : ContainerStats :=
  { cpuPercent := 0, memoryPercent := 0, memoryUsedMb := 0, status := "unknown" }

/-- Function `get_container_stats`: the whole body is wrapped in `try ... except
Exception`, so any failure (missing container, engine error) yields
`unknownStats`; a reported memory limit of `0` raises `ZeroDivisionError`
inside the `try` and also yields `unknownStats`. -/
def getContainerStats (sample : Except String (RawStats × String)) : ContainerStats :=
  match sample with
  | Except.error _ => unknownStats
  | Except.ok (raw, status) =>
      let cpuDelta : ℚ := (raw.cpuTotal : ℚ) - (raw.precpuTotal : ℚ)
      let sysDelta : ℚ := (raw.systemCpu : ℚ) - (raw.presystemCpu : ℚ)
      let cpuPercent : ℚ := if 0 < sysDelta then cpuDelta / sysDelta * 100 else 0
      let memUsage : ℚ := (raw.memUsage.getD 0 : Nat)
      let memLimit : ℚ := (raw.memLimit.getD 1 : Nat)
      if memLimit = 0 then unknownStats
      else
        { cpuPercent := round2 cpuPercent
          memoryPercent := round2 (memUsage / memLimit * 100)
          memoryUsedMb := round2 (memUsage / (1024 * 1024))
          status := status }

/-- Method `NodeClient.get_server_stats`: HTTP errors between the control plane and
the node agent are caught and yield the same zeroed dict. -/
def getServerStats (resp : Except String ContainerStats) : ContainerStats :=
  match resp with
  | Except.error _ => unknownStats
  | Except.ok s => s

/-- The idle-sweep comparison `stats['cpu_percent'] < 5.0`
(src/backend/app/services/lifecycle.py line 62). -/
def idleCpuBelowThreshold (s : ContainerStats) : Bool :=
  s.cpuPercent < 5

/-! ### Container engine state and orchestrator primitives
(src/services/docker_manager.py, src/node-agent/app/core/docker_manager.py) -/

inductive ContainerStatus
  | running
  | exited
  | created
deriving DecidableEq, Repr

structure Engine where
  images : List String
  networks : List String
  containers : List (String × ContainerStatus)
  volumes : List String
deriving DecidableEq, Repr

def Engine.containerStatus (e : Engine) (name : String) : Option ContainerStatus :=
  (e.containers.find? (fun c => c.1 == name)).map (fun c => c.2)

def Engine.hasContainer (e : Engine) (name : String) : Bool :=
  (e.containers.find? (fun c => c.1 == name)).isSome

def Engine.startContainer (e : Engine) (name : String) : Engine :=
  { e with containers :=
      e.containers.map (fun c => if c.1 == name then (c.1, ContainerStatus.running) else c) }

inductive ServerState
  | RUNNING
  | SLEEPING
  | STARTING
  | STOPPING
deriving DecidableEq, Repr

/-- The Server fields the orchestrator reads and writes. -/
structure OrchServer where
  sid : Nat
  state : ServerState
  gameContainerId : Option String
deriving DecidableEq, Repr

/-- Method `SidecarManager.wake`: an early return when the row already says RUNNING;
otherwise `containers.get` (NotFound is an `APIError` subclass, so a missing
container is caught and yields `False`); `start()` only when the container
status is not `running`.  `startFails` models `start()` raising `APIError`
(caught, yields `False`); a `None` container id would raise an error outside
the `except APIError` clause, modelled as `none`. -/
def wake (startFails : Bool) (e : Engine) (s : OrchServer) :
    Option (Bool × OrchServer × Engine) :=
  if s.state = ServerState.RUNNING then some (true, s, e)
  else
    match s.gameContainerId with
    | none => none
    | some cid =>
      match e.containerStatus cid with
      | none => some (false, s, e)
      | some st =>
        if st ≠ ContainerStatus.running then
          if startFails then some (false, s, e)
          else some (true, { s with state := ServerState.RUNNING }, e.startContainer cid)
        else some (true, { s with state := ServerState.RUNNING }, e)

def wakeWitnessServer : OrchServer :=
  { sid := 1, state := ServerState.SLEEPING, gameContainerId := some "game-1" }

def wakeWitnessEngine : Engine :=
  { images := ["gsp-proxy:latest"], networks := ["net-1"],
    containers := [("game-1", ContainerStatus.exited), ("proxy-1", ContainerStatus.running)],
    volumes := ["game-data-1"] }

/-! ### Persistent data model (src/models.py) and lifecycle controller
(src/backend/app/services/lifecycle.py), plus the separate billing daemon
(src/backend/app/billing.py).

Credits (Python floats) are modelled as rationals; `datetime.utcnow()` is an
explicit `now : Nat` argument. -/

inductive TransactionType
  | DEPOSIT
  | HOURLY_CHARGE
deriving DecidableEq, Repr

structure UserRec where
  uid : Nat
  credits : ℚ
deriving DecidableEq, Repr

structure ServerRec where
  sid : Nat
  userId : Nat
  state : ServerState
  lastStateChange : Nat
deriving DecidableEq, Repr

structure TxnRec where
  userId : Nat
  amount : ℚ
  ttype : TransactionType
deriving DecidableEq, Repr

structure Db where
  users : List UserRec
  servers : List ServerRec
  txns : List TxnRec
deriving DecidableEq, Repr

def Db.findUser (db : Db) (uid : Nat) : Option UserRec :=
  db.users.find? (fun u => u.uid == uid)

def Db.findServer (db : Db) (sid : Nat) : Option ServerRec :=
  db.servers.find? (fun s => s.sid == sid)

def Db.setCredits (db : Db) (uid : Nat) (c : ℚ) : Db :=
  { db with users := db.users.map (fun u => if u.uid == uid then { u with credits := c } else u) }

/-- Assignment `server.state = ...; server.last_state_change = datetime.utcnow()`. -/
def Db.setServerState (db : Db) (sid : Nat) (st : ServerState) (now : Nat) : Db :=
  let f := fun s : ServerRec =>
    if s.sid == sid then { s with state := st, lastStateChange := now } else s
  { db with servers := db.servers.map f }

/-- Assignment `server.state = "SLEEPING"` in billing.py, which does not touch
`last_state_change`. -/
def Db.setServerStateKeep (db : Db) (sid : Nat) (st : ServerState) : Db :=
  let f := fun s : ServerRec => if s.sid == sid then { s with state := st } else s
  { db with servers := db.servers.map f }

def Db.addTxn (db : Db) (t : TxnRec) : Db :=
  { db with txns := db.txns ++ [t] }

def Db.txnsFor (db : Db) (uid : Nat) : List TxnRec :=
  db.txns.filter (fun t => t.userId == uid)

/-- Constant `charge_amount = 0.5` (lifecycle.py line 93). -/
def chargeAmount : ℚ := 1/2

/-- Constant `CREDITS_PER_MINUTE = 0.1` (billing.py line 13). -/
def billingCost : ℚ := 1/10

/-- One iteration of the `for server in running_servers` loop of
`LifecycleManager._process_billing`.  A missing owner row would make
`user.credits` raise `AttributeError`, which propagates out of the sweep and
is caught in `_lifecycle_loop`; modelled as `none`.  The result of the
`hibernate_server` node call is ignored by the code, so it does not appear. -/
def billStep (now : Nat) (acc : Option Db) (srow : ServerRec) : Option Db :=
  acc.bind fun db =>
    match db.findUser srow.userId with
    | none => none
    | some user =>
      if user.credits ≤ 0 then
        some (db.setServerState srow.sid ServerState.SLEEPING now)
      else if chargeAmount ≤ user.credits then
        some ((db.setCredits user.uid (user.credits - chargeAmount)).addTxn
          ⟨user.uid, -chargeAmount, TransactionType.HOURLY_CHARGE⟩)
      else
        some (db.setServerState srow.sid ServerState.SLEEPING now)

/-- Method `LifecycleManager._process_billing`: the RUNNING servers are selected once
at the start of the sweep and processed in order against the evolving session
state. -/
def processBilling (now : Nat) (db : Db) : Option Db :=
  (db.servers.filter (fun s => s.state == ServerState.RUNNING)).foldl (billStep now) (some db)

/-- Method `LifecycleManager.wake_on_webhook`.  Here `wakeOk` is the boolean result of the
`node_client.wake_server` HTTP call (that client catches its own errors and
returns a bool).  `none` models the `AttributeError` raised when the owner row
is missing. -/
def wakeOnWebhook (secret : String) (db : Db) (serverId : Nat) (token : String)
    (now : Nat) (wakeOk : Bool) : Option (Bool × Db) :=
  if token ≠ secret then some (false, db)
  else
    match db.findServer serverId with
    | none => some (false, db)
    | some srv =>
      match db.findUser srv.userId with
      | none => none
      | some user =>
        if user.credits ≤ 0 then some (false, db)
        else if wakeOk then
          some (true, db.setServerState serverId ServerState.RUNNING now)
        else some (false, db)

/-- The webhook endpoint (src/routers/webhooks.py): a true result returns a
JSON body (HTTP 200), a false result raises `HTTPException(status_code=400)`. -/
def wakeWebhookStatus (success : Bool) : Nat :=
  if success then 200 else 400

/-- Method `LifecycleManager.add_credits`: no check on the sign of `amount`. -/
def addCredits (db : Db) (uid : Nat) (amount : ℚ) : Bool × Db :=
  match db.findUser uid with
  | none => (false, db)
  | some user =>
    (true, (db.setCredits uid (user.credits + amount)).addTxn
      ⟨uid, amount, TransactionType.DEPOSIT⟩)

/-- One iteration of the `for server in running_servers` loop of
`process_billing_cycle` in billing.py.  A missing owner is skipped
(`if not user: continue`).  In the out-of-credits branch the state is set to
SLEEPING only when the hibernate docker call does not raise (`hibOk`), a
transaction of `-user.credits` is appended and the credits are zeroed. -/
def billingCycleStep (hibOk : Bool) (db : Db) (srow : ServerRec) : Db :=
  match db.findUser srow.userId with
  | none => db
  | some user =>
    if billingCost ≤ user.credits then
      (db.setCredits user.uid (user.credits - billingCost)).addTxn
        ⟨user.uid, -billingCost, TransactionType.HOURLY_CHARGE⟩
    else
      let db1 := if hibOk then db.setServerStateKeep srow.sid ServerState.SLEEPING else db
      (db1.setCredits user.uid 0).addTxn
        ⟨user.uid, -user.credits, TransactionType.HOURLY_CHARGE⟩

def dbC3 : Db :=
  { users := [⟨1, 10⟩], servers := [⟨5, 1, ServerState.SLEEPING, 0⟩], txns := [] }

/-! ### The billing sweep skips the debit for underfunded owners -/

def SleepingAt (db : Db) (sid : Nat) : Prop :=
  ∃ s, db.findServer sid = some s ∧ s.state = ServerState.SLEEPING

/-- The spec's credit-exhaustion scenario: one user with 0.4 credits, one
RUNNING server, charge 0.5. -/
def dbC1 : Db :=
  { users := [⟨1, 2/5⟩], servers := [⟨10, 1, ServerState.RUNNING, 0⟩], txns := [] }

/-! ### Credit ledger invariants -/

/-- Invariant Σ(user.transactions.amount) == user.credits. -/
def ledgerOk (db : Db) : Prop :=
  ∀ u ∈ db.users, ((db.txnsFor u.uid).map TxnRec.amount).sum = u.credits

def creditsNonneg (db : Db) : Prop :=
  ∀ u ∈ db.users, 0 ≤ u.credits

/-- A user whose ledger is consistent: zero credits, no transactions. -/
def dbC2 : Db := { users := [⟨1, 0⟩], servers := [], txns := [] }

/-! ### Deploy and delete (src/services/docker_manager.py,
src/node-agent/app/core/docker_manager.py) -/

def Engine.hasNetwork (e : Engine) (name : String) : Bool :=
  (e.networks.find? (fun n => n == name)).isSome

def Engine.hasImage (e : Engine) (tag : String) : Bool :=
  (e.images.find? (fun i => i == tag)).isSome

def Engine.hasVolume (e : Engine) (name : String) : Bool :=
  (e.volumes.find? (fun v => v == name)).isSome

def Engine.ensureNetwork (e : Engine) (name : String) : Engine :=
  if e.hasNetwork name then e else { e with networks := name :: e.networks }

def Engine.buildProxyImage (e : Engine) : Engine :=
  if e.hasImage "gsp-proxy:latest" then e
  else { e with images := "gsp-proxy:latest" :: e.images }

def Engine.ensureVolume (e : Engine) (name : String) : Engine :=
  if e.hasVolume name then e else { e with volumes := name :: e.volumes }

def Engine.addContainer (e : Engine) (name : String) (st : ContainerStatus) : Engine :=
  { e with containers := (name, st) :: e.containers }

def Engine.removeContainer (e : Engine) (name : String) : Engine :=
  { e with containers := e.containers.filter (fun c => c.1 != name) }

def Engine.removeNetwork (e : Engine) (name : String) : Engine :=
  { e with networks := e.networks.filter (fun n => n != name) }

def Engine.removeVolume (e : Engine) (name : String) : Engine :=
  { e with volumes := e.volumes.filter (fun v => v != name) }

/-- Method `SidecarManager.deploy`, restricted to its effect on engine resources.
The existence check is the literal source sequence
`containers.get(game); containers.get(proxy); return False` inside one
`try/except NotFound: pass` — it refuses only when the first `get` succeeds
and then the second does too.  A duplicate-name failure from
`containers.run` / `containers.create` later is swallowed by the outer
`except Exception`, returning `False` with all side effects so far kept.
Port allocation and the Server-row bookkeeping are orthogonal and omitted. -/
def deploy (e : Engine) (sid : Nat) : Bool × Engine :=
  let e1 := e.ensureNetwork ("net-" ++ toString sid)
  let e2 := e1.buildProxyImage
  let gameName := "game-" ++ toString sid
  let proxyName := "proxy-" ++ toString sid
  if e2.hasContainer gameName && e2.hasContainer proxyName then
    (false, e2)
  else if e2.hasContainer proxyName then
    (false, e2)
  else
    let e3 := e2.addContainer proxyName ContainerStatus.running
    let e4 := e3.ensureVolume ("game-data-" ++ toString sid)
    if e4.hasContainer gameName then
      (false, e4)
    else
      (true, e4.addContainer gameName ContainerStatus.created)

inductive DelRes
  | game
  | proxy
  | net
  | vol
deriving DecidableEq, Repr

structure Bundle where
  sid : Nat
  gameContainerId : Option String
  proxyContainerId : Option String
  networkName : Option String
deriving DecidableEq, Repr

/-- One `if <id>: try: get(...).remove(...) except NotFound: pass` block for a
container.  `raisesF` models `remove` raising an error that is not NotFound;
that error is only caught by the outer handler (`Except.error`). -/
def removeContainerStep (raisesF : Bool) (e : Engine) (cid : Option String) :
    Except Engine Engine :=
  match cid with
  | none => Except.ok e
  | some c =>
    if e.hasContainer c then
      if raisesF then Except.error e else Except.ok (e.removeContainer c)
    else Except.ok e

def removeNetworkStep (raisesF : Bool) (e : Engine) (name : Option String) :
    Except Engine Engine :=
  match name with
  | none => Except.ok e
  | some n =>
    if e.hasNetwork n then
      if raisesF then Except.error e else Except.ok (e.removeNetwork n)
    else Except.ok e

/-- The volume block has no `if field:` guard; the name is derived. -/
def removeVolumeStep (raisesF : Bool) (e : Engine) (name : String) :
    Except Engine Engine :=
  if e.hasVolume name then
    if raisesF then Except.error e else Except.ok (e.removeVolume name)
  else Except.ok e

/-- Methods `delete` / `delete_server`: four removal blocks in order — game container,
proxy container, network, volume — all inside one outer
`try/except Exception: return False`. -/
def deleteServer (raises : DelRes → Bool) (e : Engine) (b : Bundle) : Bool × Engine :=
  match removeContainerStep (raises DelRes.game) e b.gameContainerId with
  | Except.error e' => (false, e')
  | Except.ok e1 =>
    match removeContainerStep (raises DelRes.proxy) e1 b.proxyContainerId with
    | Except.error e' => (false, e')
    | Except.ok e2 =>
      match removeNetworkStep (raises DelRes.net) e2 b.networkName with
      | Except.error e' => (false, e')
      | Except.ok e3 =>
        match removeVolumeStep (raises DelRes.vol) e3 ("game-data-" ++ toString b.sid) with
        | Except.error e' => (false, e')
        | Except.ok e4 => (true, e4)

def raisesGame : DelRes → Bool
  | DelRes.game => true
  | _ => false

def deployEngineC5 : Engine :=
  { images := ["gsp-proxy:latest"], networks := ["net-7"],
    containers := [("game-7", ContainerStatus.exited)], volumes := [] }

def deleteEngineC6 : Engine :=
  { images := [], networks := ["net-9"],
    containers := [("game-9", ContainerStatus.running), ("proxy-9", ContainerStatus.running)],
    volumes := ["game-data-9"] }

def bundleC6 : Bundle :=
  { sid := 9, gameContainerId := some "game-9", proxyContainerId := some "proxy-9",
    networkName := some "net-9" }

def deployEngineBoth : Engine :=
  { images := ["gsp-proxy:latest"], networks := ["net-3"],
    containers := [("game-3", ContainerStatus.exited), ("proxy-3", ContainerStatus.running)],
    volumes := [] }

/-! ### TCP hold branch (src/proxy_service/main.py handle_tcp_client, lines
96-145).  When the target is unreachable the session enters hold mode:
`buffer = bytearray()` (line 98), then a `try` block whose FIRST statement
is `client_writer.set_tcp_nodelay(False)` (line 101).  `asyncio.StreamWriter`
has no method of that name, so that call raises `AttributeError`
unconditionally, and the `except Exception` at line 139 closes the client
connection.  The `while True` hold loop at lines 103-126 is therefore
unreachable; it is embedded below as `holdLoop` exactly as written, and the
whole branch — raising call included — as `holdSession`. -/

structure HoldInput where
  dt : Nat
  data : List UInt8
  reachable : Bool
deriving DecidableEq, Repr

inductive HoldOutcome
  | closedTimeout
  | bridging (buffer : List UInt8)
  | waking (elapsed : Nat) (buffer : List UInt8)
deriving DecidableEq, Repr

/-- The `while True` loop of lines 103-126 as written: check
`elapsed >= HOLD_TIMEOUT` (close, dropping the buffer), read with a
`RETRY_INTERVAL` deadline and extend the buffer with whatever arrived (a
timeout contributes no bytes), then probe the target (bridge on success,
flushing the buffer).  `dt` is the wall time the iteration's read consumed.
Control never reaches this loop in the program — see `holdSession`. -/
def holdLoop (timeout : Nat) : Nat → List UInt8 → List HoldInput → HoldOutcome
  | elapsed, buffer, [] => HoldOutcome.waking elapsed buffer
  | elapsed, buffer, inp :: rest =>
    if timeout ≤ elapsed then HoldOutcome.closedTimeout
    else
      let buffer' := buffer ++ inp.data
      if inp.reachable then HoldOutcome.bridging buffer'
      else holdLoop timeout (elapsed + inp.dt) buffer' rest

/-- Outcome of one whole hold-mode session: `closedError` is the
`except Exception` path of line 139, which closes the client; its argument
records the session buffer contents at that point. -/
inductive SessionOutcome
  | closedError (buffer : List UInt8)
  | closedTimeout
  | bridging (buffer : List UInt8)
  | waking (elapsed : Nat) (buffer : List UInt8)
deriving DecidableEq, Repr

/-- Line 101, `client_writer.set_tcp_nodelay(False)`: `asyncio.StreamWriter`
has no attribute `set_tcp_nodelay`, so the call raises `AttributeError`
unconditionally. -/
def setTcpNodelay : Except String Unit :=
  Except.error "AttributeError"

/-- Lines 96-145: `buffer = bytearray()`, then the `try` block — the
`set_tcp_nodelay` call followed by the hold loop (and, after it, backend
connect, buffer flush and relay) — with every exception landing in the
`except Exception` at line 139, which closes the client.  Since the first
statement raises, the buffer is still empty when the session is closed. -/
def holdSession (timeout : Nat) (events : List HoldInput) : SessionOutcome :=
  match setTcpNodelay with
  | Except.error _ => SessionOutcome.closedError []
  | Except.ok _ =>
    match holdLoop timeout 0 [] events with
    | HoldOutcome.closedTimeout => SessionOutcome.closedTimeout
    | HoldOutcome.bridging buf => SessionOutcome.bridging buf
    | HoldOutcome.waking e buf => SessionOutcome.waking e buf

/-- A client burst of one full 8 KiB read while the target is unreachable. -/
def c4Chunk : HoldInput :=
  { dt := 2, data := List.replicate 8192 (65 : UInt8), reachable := false }

def c4Probe : HoldInput := { dt := 2, data := [], reachable := true }

/-- A client that sends nine full reads (73728 bytes) during the hold
window, after which the target becomes reachable — all well inside the 60 s
hold timeout. -/
def c4Trace : List HoldInput :=
  [c4Chunk, c4Chunk, c4Chunk, c4Chunk, c4Chunk, c4Chunk, c4Chunk, c4Chunk, c4Chunk, c4Probe]

/-! ### UDP relay (src/proxy_service/main.py UDPRelay / handle_udp_datagram,
lines 162-237). -/

structure UDPRelayState where
  clientAddr : Nat
  targetTransport : Option Nat
  buffer : List (List UInt8)
  pendingEndpoints : Nat
  wakeTaskStarted : Bool
deriving DecidableEq, Repr

def UDPRelayState.fresh (addr : Nat) : UDPRelayState :=
  { clientAddr := addr, targetTransport := none, buffer := [], pendingEndpoints := 0,
    wakeTaskStarted := false }

/-- Method `UDPRelay.flush_buffer`: when there is no target transport yet it only
SCHEDULES creation of the datagram endpoint (`loop.create_task(...)`);
`self.target_transport` is assigned later, when that task has run and
`connection_made` fires.  Synchronously the transport remains `None`. -/
def flushBuffer (r : UDPRelayState) : UDPRelayState :=
  match r.targetTransport with
  | none => { r with pendingEndpoints := r.pendingEndpoints + 1 }
  | some _ => r

inductive SendEvent
  | toTarget (transport : Nat) (data : List UInt8)
deriving DecidableEq, Repr

def updateRelay (relays : List (Nat × UDPRelayState)) (addr : Nat) (r : UDPRelayState) :
    List (Nat × UDPRelayState) :=
  relays.map (fun kv => if kv.1 == addr then (addr, r) else kv)

/-- Function `handle_udp_datagram`: register a fresh relay for an unknown client
address, then — with no transport yet — either buffer the datagram and start
the wake task (target unreachable), or call `relay.flush_buffer()` and
immediately `relay.target_transport.sendto(...)` (target reachable).
`Except.error` models an uncaught Python exception in the handler task. -/
def handleUdpDatagram (reachable : Bool) (relays : List (Nat × UDPRelayState))
    (addr : Nat) (data : List UInt8) :
    Except String (List (Nat × UDPRelayState) × List SendEvent) :=
  let relays1 := if (relays.find? (fun kv => kv.1 == addr)).isSome then relays
    else relays ++ [(addr, UDPRelayState.fresh addr)]
  match (relays1.find? (fun kv => kv.1 == addr)).map (fun kv => kv.2) with
  | none => Except.error "missing relay"
  | some relay =>
    match relay.targetTransport with
    | some t => Except.ok (relays1, [SendEvent.toTarget t data])
    | none =>
      if reachable = false then
        let newBuf := relay.buffer ++ [data]
        let relay' := { relay with
          buffer := newBuf
          wakeTaskStarted := relay.wakeTaskStarted || (newBuf.length == 1) }
        Except.ok (updateRelay relays1 addr relay', [])
      else
        let relay' := flushBuffer relay
        match relay'.targetTransport with
        | none => Except.error "AttributeError"
        | some t => Except.ok (updateRelay relays1 addr relay', [SendEvent.toTarget t data])

lemma wake_success_state (sf : Bool) (e : Engine) (s s' : OrchServer) (e' : Engine)
    (h : wake sf e s = some (true, s', e')) : s'.state = ServerState.RUNNING := by
  unfold wake at h
  split at h
  · next hrun =>
      simp only [Option.some.injEq, Prod.mk.injEq] at h
      obtain ⟨-, hs, -⟩ := h
      rw [← hs]; exact hrun
  · split at h
    · exact absurd h (by simp)
    · split at h
      · simp only [Option.some.injEq, Prod.mk.injEq] at h
        exact absurd h.1 (by simp)
      · split at h
        · split at h
          · simp only [Option.some.injEq, Prod.mk.injEq] at h
            exact absurd h.1 (by simp)
          · simp only [Option.some.injEq, Prod.mk.injEq] at h
            obtain ⟨-, hs, -⟩ := h
            rw [← hs]
        · simp only [Option.some.injEq, Prod.mk.injEq] at h
          obtain ⟨-, hs, -⟩ := h
          rw [← hs]

/-- C8: `wake` applied twice to the same server equals `wake` applied once:
after a successful wake the server row is RUNNING, so the second call takes
the early-return branch — no second `start()`, the container state (engine)
is unchanged, and the same success result is returned, for any behaviour of
the start oracle on the second call. -/
theorem wake_idempotent (sf sf2 : Bool) (e : Engine) (s s' : OrchServer) (e' : Engine)
    (h : wake sf e s = some (true, s', e')) :
    wake sf2 e' s' = some (true, s', e') := by
  have hrun := wake_success_state sf e s s' e' h
  unfold wake
  rw [if_pos hrun]

theorem wake_idempotent_witness :
    wake false wakeWitnessEngine wakeWitnessServer
      = some (true, { wakeWitnessServer with state := ServerState.RUNNING },
              wakeWitnessEngine.startContainer "game-1")
    ∧ wake true (wakeWitnessEngine.startContainer "game-1")
        { wakeWitnessServer with state := ServerState.RUNNING }
      = some (true, { wakeWitnessServer with state := ServerState.RUNNING },
              wakeWitnessEngine.startContainer "game-1") := by
  refine ⟨by decide, ?_⟩
  exact wake_idempotent false true wakeWitnessEngine wakeWitnessServer
    { wakeWitnessServer with state := ServerState.RUNNING }
    (wakeWitnessEngine.startContainer "game-1") (by decide)

/-- C9 (counterexample): with the webhook URL, server id and token present but
the target variables entirely absent, the proxy does not refuse to start: the
module-level check passes and `TARGET_HOST` silently falls back to
`"localhost"`.  This falsifies the claim that a missing target refuses start. -/
theorem proxy_starts_without_target_env :
    (loadProxyConfig envNoTarget).isSome = true
    ∧ (loadProxyConfig envNoTarget).map ProxyConfig.targetHost = some "localhost"
    ∧ (loadProxyConfig envNoTarget).map ProxyConfig.targetPort = some 25565 := by
  decide

/-- C9 (amended): the proxy refuses to start iff one of the three checked
variables — webhook URL, server id, webhook token — is missing (or empty),
provided the four numeric variables parse (they do when absent, via their
defaults); the target host and port are never part of the startup check and
default to `localhost:25565`. -/
theorem proxy_startup_checks_three_vars (env : Env)
    (hp1 : (parseNat? (getenvD env "TARGET_PORT" "25565")).isSome = true)
    (hp2 : (parseNat? (getenvD env "LISTEN_PORT" "25565")).isSome = true)
    (hp3 : (parseNat? (getenvD env "HOLD_TIMEOUT" "60")).isSome = true)
    (hp4 : (parseNat? (getenvD env "RETRY_INTERVAL" "2")).isSome = true) :
    (loadProxyConfig env).isSome =
      (truthy (getenv env "BACKEND_WEBHOOK_URL")
        && truthy (getenv env "SERVER_ID")
        && truthy (getenv env "WEBHOOK_TOKEN")) := by
  obtain ⟨a, ha⟩ := Option.isSome_iff_exists.mp hp1
  obtain ⟨b, hb⟩ := Option.isSome_iff_exists.mp hp2
  obtain ⟨c, hc⟩ := Option.isSome_iff_exists.mp hp3
  obtain ⟨d, hd⟩ := Option.isSome_iff_exists.mp hp4
  unfold loadProxyConfig
  rw [ha, hb, hc, hd]
  by_cases hall : (truthy (getenv env "BACKEND_WEBHOOK_URL")
      && truthy (getenv env "SERVER_ID")
      && truthy (getenv env "WEBHOOK_TOKEN")) = true
  · simp [hall, Option.bind]
  · simp only [Bool.not_eq_true] at hall
    simp [hall, Option.bind]

theorem proxy_startup_checks_three_vars_witness :
    ((parseNat? (getenvD envNoTarget "TARGET_PORT" "25565")).isSome = true)
    ∧ (loadProxyConfig envNoTarget).isSome =
        (truthy (getenv envNoTarget "BACKEND_WEBHOOK_URL")
          && truthy (getenv envNoTarget "SERVER_ID")
          && truthy (getenv envNoTarget "WEBHOOK_TOKEN")) := by
  refine ⟨by decide, ?_⟩
  exact proxy_startup_checks_three_vars envNoTarget
    (by decide) (by decide) (by decide) (by decide)

/-- C10: every failure while sampling stats — whether at the container engine
(`get_container_stats` on either manager) or on the control-plane HTTP path
(`get_server_stats`) — yields the dict
`{cpu_percent: 0, memory_percent: 0, memory_used_mb: 0, status: 'unknown'}`
rather than an exception, and that dict's `cpu_percent` is below the idle
sweep's 5.0 hibernation threshold. -/
theorem stats_failure_returns_zero_dict :
    (∀ msg : String, getContainerStats (Except.error msg) = unknownStats)
    ∧ (∀ msg : String, getServerStats (Except.error msg) = unknownStats)
    ∧ unknownStats.cpuPercent = 0
    ∧ unknownStats.memoryPercent = 0
    ∧ unknownStats.memoryUsedMb = 0
    ∧ unknownStats.status = "unknown"
    ∧ idleCpuBelowThreshold unknownStats = true := by
  refine ⟨fun _ => rfl, fun _ => rfl, rfl, rfl, rfl, rfl, ?_⟩
  unfold idleCpuBelowThreshold unknownStats
  norm_num

/-! ### Characterisation lemmas for the row operations -/

lemma find?_map_pred {α : Type} (g : α → α) (p : α → Bool)
    (hg : ∀ a, p (g a) = p a) (l : List α) :
    (l.map g).find? p = (l.find? p).map g := by
  induction l with
  | nil => rfl
  | cons a l ih =>
    simp only [List.map_cons, List.find?]
    rw [hg a]
    by_cases h : p a
    · simp [h]
    · simp only [Bool.not_eq_true] at h
      simp [h, ih]

lemma findUser_setCredits (db : Db) (uid : Nat) (c : ℚ) (v : Nat) :
    (db.setCredits uid c).findUser v
      = (db.findUser v).map (fun u => if u.uid == uid then { u with credits := c } else u) := by
  unfold Db.setCredits Db.findUser
  apply find?_map_pred
  intro u
  by_cases h : u.uid == uid <;> simp [h]

lemma findUser_setServerState (db : Db) (sid : Nat) (st : ServerState) (now v : Nat) :
    (db.setServerState sid st now).findUser v = db.findUser v := rfl

lemma findUser_setServerStateKeep (db : Db) (sid : Nat) (st : ServerState) (v : Nat) :
    (db.setServerStateKeep sid st).findUser v = db.findUser v := rfl

lemma findUser_addTxn (db : Db) (t : TxnRec) (v : Nat) :
    (db.addTxn t).findUser v = db.findUser v := rfl

lemma findServer_setCredits (db : Db) (uid : Nat) (c : ℚ) (t : Nat) :
    (db.setCredits uid c).findServer t = db.findServer t := rfl

lemma findServer_addTxn (db : Db) (tx : TxnRec) (t : Nat) :
    (db.addTxn tx).findServer t = db.findServer t := rfl

lemma findServer_setServerState (db : Db) (sid : Nat) (st : ServerState) (now t : Nat) :
    (db.setServerState sid st now).findServer t
      = (db.findServer t).map
          (fun s => if s.sid == sid then { s with state := st, lastStateChange := now } else s) := by
  unfold Db.setServerState Db.findServer
  apply find?_map_pred
  intro s
  by_cases h : s.sid == sid <;> simp [h]

lemma txnsFor_setCredits (db : Db) (uid : Nat) (c : ℚ) (v : Nat) :
    (db.setCredits uid c).txnsFor v = db.txnsFor v := rfl

lemma txnsFor_setServerState (db : Db) (sid : Nat) (st : ServerState) (now v : Nat) :
    (db.setServerState sid st now).txnsFor v = db.txnsFor v := rfl

lemma txnsFor_addTxn (db : Db) (t : TxnRec) (v : Nat) :
    (db.addTxn t).txnsFor v
      = db.txnsFor v ++ (if t.userId == v then [t] else []) := by
  unfold Db.addTxn Db.txnsFor
  simp only [List.filter_append]
  congr 1
  by_cases h : t.userId == v <;> simp [h]

lemma findUser_mem_of_eq_some (db : Db) (uid : Nat) (u : UserRec)
    (h : db.findUser uid = some u) : u ∈ db.users ∧ u.uid = uid := by
  refine ⟨List.mem_of_find?_eq_some h, ?_⟩
  have := List.find?_some h
  simpa using this

lemma findServer_mem_of_eq_some (db : Db) (sid : Nat) (s : ServerRec)
    (h : db.findServer sid = some s) : s ∈ db.servers ∧ s.sid = sid := by
  refine ⟨List.mem_of_find?_eq_some h, ?_⟩
  have := List.find?_some h
  simpa using this

lemma findServer_isSome_of_mem (db : Db) (s : ServerRec) (h : s ∈ db.servers) :
    (db.findServer s.sid).isSome = true := by
  unfold Db.findServer
  rw [List.find?_isSome]
  exact ⟨s, h, by simp⟩

lemma bindSome {α β : Type} (a : α) (f : α → Option β) : (some a).bind f = f a := rfl

lemma wakeOnWebhook_eq_of_found (secret : String) (db : Db) (sid : Nat) (token : String)
    (now : Nat) (wakeOk : Bool) (srv : ServerRec) (user : UserRec)
    (ht : token = secret) (hsrv : db.findServer sid = some srv)
    (huser : db.findUser srv.userId = some user) :
    wakeOnWebhook secret db sid token now wakeOk
      = (if user.credits ≤ 0 then some (false, db)
         else if wakeOk then some (true, db.setServerState sid ServerState.RUNNING now)
         else some (false, db)) := by
  unfold wakeOnWebhook
  rw [if_neg (by simp [ht]), hsrv]
  show (match db.findUser srv.userId with
      | none => none
      | some user =>
        if user.credits ≤ 0 then some (false, db)
        else if wakeOk then some (true, db.setServerState sid ServerState.RUNNING now)
        else some (false, db)) = _
  rw [huser]

/-- C3: `wake_on_webhook` returns false and leaves the database untouched on a
bad token, a missing server, an owner with `credits ≤ 0`, or a failed
orchestrator wake; on a successful wake it sets the server RUNNING with
`last_state_change = now` and returns true; the webhook endpoint maps true to
HTTP 200 and false to HTTP 400. -/
theorem wake_on_webhook_contract (secret token : String) (db : Db) (sid now : Nat)
    (wakeOk : Bool) :
    (token ≠ secret → wakeOnWebhook secret db sid token now wakeOk = some (false, db))
    ∧ (db.findServer sid = none →
        wakeOnWebhook secret db sid token now wakeOk = some (false, db))
    ∧ (∀ srv user, db.findServer sid = some srv → db.findUser srv.userId = some user →
        user.credits ≤ 0 → wakeOnWebhook secret db sid token now wakeOk = some (false, db))
    ∧ (∀ srv user, db.findServer sid = some srv → db.findUser srv.userId = some user →
        0 < user.credits → wakeOk = false →
        wakeOnWebhook secret db sid token now wakeOk = some (false, db))
    ∧ (∀ srv user, token = secret → db.findServer sid = some srv →
        db.findUser srv.userId = some user → 0 < user.credits → wakeOk = true →
        wakeOnWebhook secret db sid token now wakeOk
          = some (true, db.setServerState sid ServerState.RUNNING now)
        ∧ (db.setServerState sid ServerState.RUNNING now).findServer sid
            = some { srv with state := ServerState.RUNNING, lastStateChange := now })
    ∧ wakeWebhookStatus true = 200 ∧ wakeWebhookStatus false = 400 := by
  refine ⟨?_, ?_, ?_, ?_, ?_, rfl, rfl⟩
  · intro h
    unfold wakeOnWebhook
    rw [if_pos h]
  · intro h
    unfold wakeOnWebhook
    by_cases ht : token ≠ secret
    · rw [if_pos ht]
    · rw [if_neg ht, h]
  · intro srv user hsrv huser hc
    by_cases ht : token ≠ secret
    · unfold wakeOnWebhook
      rw [if_pos ht]
    · rw [wakeOnWebhook_eq_of_found secret db sid token now wakeOk srv user
        (not_not.mp ht) hsrv huser, if_pos hc]
  · intro srv user hsrv huser hc hwk
    by_cases ht : token ≠ secret
    · unfold wakeOnWebhook
      rw [if_pos ht]
    · rw [wakeOnWebhook_eq_of_found secret db sid token now wakeOk srv user
        (not_not.mp ht) hsrv huser, if_neg (not_le.mpr hc), hwk, if_neg (by simp)]
  · intro srv user ht hsrv huser hc hwk
    constructor
    · rw [wakeOnWebhook_eq_of_found secret db sid token now wakeOk srv user
        ht hsrv huser, if_neg (not_le.mpr hc), hwk, if_pos rfl]
    · have hsid := (findServer_mem_of_eq_some db sid srv hsrv).2
      rw [findServer_setServerState, hsrv]
      simp [hsid]

theorem wake_on_webhook_contract_witness :
    wakeOnWebhook "tok" dbC3 5 "tok" 9 true
      = some (true, dbC3.setServerState 5 ServerState.RUNNING 9) := by
  have h := (wake_on_webhook_contract "tok" "tok" dbC3 5 9 true).2.2.2.2.1
    ⟨5, 1, ServerState.SLEEPING, 0⟩ ⟨1, 10⟩ rfl rfl rfl (by norm_num) rfl
  exact h.1

lemma sleepingAt_setServerState_self (db : Db) (sid now : Nat)
    (h : (db.findServer sid).isSome = true) :
    SleepingAt (db.setServerState sid ServerState.SLEEPING now) sid := by
  obtain ⟨s, hs⟩ := Option.isSome_iff_exists.mp h
  have hsid := (findServer_mem_of_eq_some db sid s hs).2
  refine ⟨{ s with state := ServerState.SLEEPING, lastStateChange := now }, ?_, rfl⟩
  rw [findServer_setServerState, hs]
  simp [hsid]

lemma sleepingAt_setServerState_mono (db : Db) (sid' now t : Nat)
    (h : SleepingAt db t) :
    SleepingAt (db.setServerState sid' ServerState.SLEEPING now) t := by
  obtain ⟨s, hs, hst⟩ := h
  refine ⟨if s.sid == sid'
      then { s with state := ServerState.SLEEPING, lastStateChange := now } else s, ?_, ?_⟩
  · rw [findServer_setServerState, hs]
    rfl
  · by_cases h2 : s.sid == sid' <;> simp [h2, hst]

/-- The three control-flow outcomes of one billing-loop iteration, given the
owner row. -/
lemma billStep_cases (now : Nat) (dbc : Db) (srow : ServerRec) (user : UserRec)
    (hw : dbc.findUser srow.userId = some user) :
    (user.credits ≤ 0
      ∧ billStep now (some dbc) srow
          = some (dbc.setServerState srow.sid ServerState.SLEEPING now))
    ∨ (chargeAmount ≤ user.credits
      ∧ billStep now (some dbc) srow
          = some ((dbc.setCredits user.uid (user.credits - chargeAmount)).addTxn
              ⟨user.uid, -chargeAmount, TransactionType.HOURLY_CHARGE⟩))
    ∨ (0 < user.credits ∧ user.credits < chargeAmount
      ∧ billStep now (some dbc) srow
          = some (dbc.setServerState srow.sid ServerState.SLEEPING now)) := by
  have hred : billStep now (some dbc) srow
      = (if user.credits ≤ 0
          then some (dbc.setServerState srow.sid ServerState.SLEEPING now)
          else if chargeAmount ≤ user.credits
          then some ((dbc.setCredits user.uid (user.credits - chargeAmount)).addTxn
              ⟨user.uid, -chargeAmount, TransactionType.HOURLY_CHARGE⟩)
          else some (dbc.setServerState srow.sid ServerState.SLEEPING now)) := by
    unfold billStep
    rw [bindSome, hw]
  rw [hred]
  rcases le_or_lt user.credits 0 with h0 | h0
  · exact Or.inl ⟨h0, by rw [if_pos h0]⟩
  · rcases le_or_lt chargeAmount user.credits with h1 | h1
    · exact Or.inr (Or.inl ⟨h1, by rw [if_neg (not_le.mpr h0), if_pos h1]⟩)
    · exact Or.inr (Or.inr ⟨h0, h1, by rw [if_neg (not_le.mpr h0), if_neg (not_le.mpr h1)]⟩)

lemma billStep_some (now : Nat) (dbc : Db) (srow : ServerRec) (user : UserRec)
    (hw : dbc.findUser srow.userId = some user) :
    ∃ db1, billStep now (some dbc) srow = some db1
      ∧ (∀ v, (db1.findUser v).isSome = (dbc.findUser v).isSome)
      ∧ (∀ t, (db1.findServer t).isSome = (dbc.findServer t).isSome)
      ∧ (∀ t, SleepingAt dbc t → SleepingAt db1 t) := by
  rcases billStep_cases now dbc srow user hw with ⟨_, heq⟩ | ⟨_, heq⟩ | ⟨_, _, heq⟩
  · refine ⟨_, heq, fun v => rfl, fun t => ?_, fun t => sleepingAt_setServerState_mono _ _ _ _⟩
    rw [findServer_setServerState]
    cases dbc.findServer t <;> rfl
  · refine ⟨_, heq, fun v => ?_, fun t => rfl, fun t h => h⟩
    rw [findUser_addTxn, findUser_setCredits]
    cases dbc.findUser v <;> rfl
  · refine ⟨_, heq, fun v => rfl, fun t => ?_, fun t => sleepingAt_setServerState_mono _ _ _ _⟩
    rw [findServer_setServerState]
    cases dbc.findServer t <;> rfl

/-- An underfunded user is untouched by any single billing iteration: same
row, same transactions. -/
lemma billStep_skip_user (now : Nat) (dbc : Db) (srow : ServerRec) (user u : UserRec)
    (uid : Nat) (hw : dbc.findUser srow.userId = some user)
    (hu : dbc.findUser uid = some u) (hlt : u.credits < chargeAmount)
    (db1 : Db) (heq : billStep now (some dbc) srow = some db1) :
    db1.findUser uid = some u ∧ db1.txnsFor uid = dbc.txnsFor uid := by
  rcases billStep_cases now dbc srow user hw with ⟨_, heq'⟩ | ⟨hc, heq'⟩ | ⟨_, _, heq'⟩
  · rw [heq'] at heq
    cases Option.some.inj heq
    exact ⟨hu, rfl⟩
  · rw [heq'] at heq
    cases Option.some.inj heq
    have huid : u.uid = uid := (findUser_mem_of_eq_some dbc uid u hu).2
    have hwid : user.uid = srow.userId := (findUser_mem_of_eq_some dbc srow.userId user hw).2
    have hne : user.uid ≠ uid := by
      intro hcontra
      have hsu : srow.userId = uid := by rw [← hwid, hcontra]
      rw [hsu, hu] at hw
      have huu : user = u := (Option.some.inj hw).symm
      rw [huu] at hc
      exact absurd hc (not_le.mpr hlt)
    constructor
    · rw [findUser_addTxn, findUser_setCredits, hu]
      have hb : (u.uid == user.uid) = false :=
        beq_eq_false_iff_ne.mpr (by rw [huid]; exact Ne.symm hne)
      simp only [Option.map_some', hb, Bool.false_eq_true, if_false]
    · rw [txnsFor_addTxn, txnsFor_setCredits]
      have hb : (user.uid == uid) = false := beq_eq_false_iff_ne.mpr hne
      simp [hb]
  · rw [heq'] at heq
    cases Option.some.inj heq
    exact ⟨hu, rfl⟩

/-- Folding the billing step over any list of server rows leaves an
underfunded user's row and transactions untouched and puts every one of that
user's rows in the list to SLEEPING. -/
lemma billFold_skip (now uid : Nat) (u : UserRec) (hlt : u.credits < chargeAmount) :
    ∀ (l : List ServerRec) (dbc : Db),
      dbc.findUser uid = some u →
      (∀ s ∈ l, (dbc.findUser s.userId).isSome = true) →
      (∀ s ∈ l, (dbc.findServer s.sid).isSome = true) →
      ∃ db', l.foldl (billStep now) (some dbc) = some db'
        ∧ db'.findUser uid = some u
        ∧ db'.txnsFor uid = dbc.txnsFor uid
        ∧ (∀ t, SleepingAt dbc t → SleepingAt db' t)
        ∧ (∀ s ∈ l, s.userId = uid → SleepingAt db' s.sid) := by
  intro l
  induction l with
  | nil =>
    intro dbc h1 _ _
    exact ⟨dbc, rfl, h1, rfl, fun _ h => h, by simp⟩
  | cons s rest ih =>
    intro dbc h1 h2 h3
    obtain ⟨w, hw⟩ := Option.isSome_iff_exists.mp (h2 s (List.mem_cons_self s rest))
    obtain ⟨db1, heq, hUsers, hServers, hSleep⟩ := billStep_some now dbc s w hw
    obtain ⟨hA, hB⟩ := billStep_skip_user now dbc s w u uid hw h1 hlt db1 heq
    have h2' : ∀ x ∈ rest, (db1.findUser x.userId).isSome = true := fun x hx => by
      rw [hUsers]
      exact h2 x (List.mem_cons_of_mem s hx)
    have h3' : ∀ x ∈ rest, (db1.findServer x.sid).isSome = true := fun x hx => by
      rw [hServers]
      exact h3 x (List.mem_cons_of_mem s hx)
    obtain ⟨db', hfold, hu', htx', hmono', hsleep'⟩ := ih db1 hA h2' h3'
    refine ⟨db', ?_, hu', htx'.trans hB, fun t ht => hmono' t (hSleep t ht), ?_⟩
    · rw [List.foldl_cons, heq]
      exact hfold
    · intro x hx hxid
      rcases List.mem_cons.mp hx with hxs | hxr
      · subst hxs
        apply hmono'
        -- at this step the owner record w equals u, so the debit branch is impossible
        have hwu : w = u := by
          rw [hxid] at hw
          rw [h1] at hw
          exact (Option.some.inj hw).symm
        rcases billStep_cases now dbc x w hw with ⟨_, heq'⟩ | ⟨hc, heq'⟩ | ⟨_, _, heq'⟩
        · rw [heq'] at heq
          cases Option.some.inj heq
          exact sleepingAt_setServerState_self dbc x.sid now (h3 x (List.mem_cons_self x rest))
        · rw [hwu] at hc
          exact absurd hc (not_le.mpr hlt)
        · rw [heq'] at heq
          cases Option.some.inj heq
          exact sleepingAt_setServerState_self dbc x.sid now (h3 x (List.mem_cons_self x rest))
      · exact hsleep' x hxr hxid

/-- C1: in `_process_billing`, every RUNNING server whose owner's credits are
below the per-tick charge (0.5) is hibernated with the debit skipped: after the
sweep the server row is SLEEPING, the owner's row (hence credits) is exactly as
before, and no transaction — in particular no HOURLY_CHARGE — was appended for
that owner in that tick. -/
theorem billing_underfunded_hibernates_and_skips_debit (now : Nat) (db : Db)
    (uid : Nat) (u : UserRec) (hu : db.findUser uid = some u)
    (hlt : u.credits < chargeAmount)
    (howner : ∀ s ∈ db.servers, s.state = ServerState.RUNNING →
        (db.findUser s.userId).isSome = true) :
    ∃ db', processBilling now db = some db'
      ∧ db'.findUser uid = some u
      ∧ db'.txnsFor uid = db.txnsFor uid
      ∧ ∀ s ∈ db.servers, s.userId = uid → s.state = ServerState.RUNNING →
          SleepingAt db' s.sid := by
  have hfl : ∀ s ∈ db.servers.filter (fun s => s.state == ServerState.RUNNING),
      s ∈ db.servers ∧ s.state = ServerState.RUNNING := by
    intro s hs
    have hm := List.mem_filter.mp hs
    exact ⟨hm.1, by simpa using hm.2⟩
  obtain ⟨db', h1, h2, h3, _, h5⟩ := billFold_skip now uid u hlt
    (db.servers.filter (fun s => s.state == ServerState.RUNNING)) db hu
    (fun s hs => howner s (hfl s hs).1 (hfl s hs).2)
    (fun s hs => findServer_isSome_of_mem db s (hfl s hs).1)
  refine ⟨db', h1, h2, h3, ?_⟩
  intro s hs hsu hrun
  exact h5 s (List.mem_filter.mpr ⟨hs, by simp [hrun]⟩) hsu

theorem billing_underfunded_hibernates_and_skips_debit_witness :
    (2/5 : ℚ) < chargeAmount
    ∧ ∃ db', processBilling 7 dbC1 = some db'
        ∧ db'.findUser 1 = some ⟨1, 2/5⟩
        ∧ db'.txnsFor 1 = dbC1.txnsFor 1
        ∧ ∀ s ∈ dbC1.servers, s.userId = 1 → s.state = ServerState.RUNNING →
            SleepingAt db' s.sid := by
  have hlt : (2/5 : ℚ) < chargeAmount := by
    unfold chargeAmount
    norm_num
  refine ⟨hlt, ?_⟩
  exact billing_underfunded_hibernates_and_skips_debit 7 dbC1 1 ⟨1, 2/5⟩ rfl hlt
    (by intro s hs _
        simp only [dbC1, List.mem_singleton] at hs
        subst hs
        rfl)

/-- Setting a found user's credits to `old + amt` while appending one
transaction of amount `amt` preserves the ledger equation. -/
lemma ledgerOk_update (db : Db) (hL : ledgerOk db) (uid : Nat) (user : UserRec)
    (hfind : db.findUser uid = some user) (newCredits amt : ℚ) (ty : TransactionType)
    (hdelta : newCredits = user.credits + amt) :
    ledgerOk ((db.setCredits uid newCredits).addTxn ⟨uid, amt, ty⟩) := by
  intro x hx
  obtain ⟨hmem, hueq⟩ := findUser_mem_of_eq_some db uid user hfind
  obtain ⟨y, hy, hxy⟩ := List.mem_map.mp hx
  have htx : ((db.setCredits uid newCredits).addTxn ⟨uid, amt, ty⟩).txnsFor x.uid
      = db.txnsFor x.uid ++ (if uid == x.uid then [⟨uid, amt, ty⟩] else []) := by
    rw [txnsFor_addTxn, txnsFor_setCredits]
  rw [htx]
  by_cases hyu : (y.uid == uid) = true
  · have hyuid : y.uid = uid := by simpa using hyu
    have hxeq : x = { y with credits := newCredits } := by rw [← hxy, if_pos hyu]
    have hxuid : x.uid = uid := by rw [hxeq]; exact hyuid
    have hcred : x.credits = newCredits := by rw [hxeq]
    have hsum : ((db.txnsFor uid).map TxnRec.amount).sum = user.credits := by
      have h := hL user hmem
      rw [hueq] at h
      exact h
    rw [hxuid, if_pos (show (uid == uid) = true by simp)]
    rw [List.map_append, List.sum_append, hsum, hcred, hdelta]
    simp
  · have hxeq : x = y := by rw [← hxy, if_neg hyu]
    have hne : uid ≠ x.uid := by
      rw [hxeq]
      intro h
      exact hyu (by simp [h.symm])
    have hb : (uid == x.uid) = false := beq_eq_false_iff_ne.mpr hne
    rw [hb]
    simp only [Bool.false_eq_true, if_false, List.append_nil]
    rw [hxeq]
    exact hL y hy

lemma creditsNonneg_update (db : Db) (hN : creditsNonneg db) (uid : Nat)
    (newCredits : ℚ) (h0 : 0 ≤ newCredits) (t : TxnRec) :
    creditsNonneg ((db.setCredits uid newCredits).addTxn t) := by
  intro x hx
  obtain ⟨y, hy, hxy⟩ := List.mem_map.mp hx
  by_cases hyu : (y.uid == uid) = true
  · rw [← hxy, if_pos hyu]
    exact h0
  · rw [← hxy, if_neg hyu]
    exact hN y hy

lemma billStep_preserves_ledger (db : Db) (hL : ledgerOk db) (hN : creditsNonneg db)
    (now : Nat) (srow : ServerRec) (db' : Db)
    (heq : billStep now (some db) srow = some db') :
    ledgerOk db' ∧ creditsNonneg db' := by
  cases hfu : db.findUser srow.userId with
  | none =>
    have hnone : billStep now (some db) srow = none := by
      unfold billStep
      rw [bindSome, hfu]
    rw [hnone] at heq
    cases heq
  | some user =>
    have hwid : user.uid = srow.userId := (findUser_mem_of_eq_some db srow.userId user hfu).2
    have hfind' : db.findUser user.uid = some user := by rw [hwid]; exact hfu
    rcases billStep_cases now db srow user hfu with ⟨_, heq'⟩ | ⟨hc, heq'⟩ | ⟨_, _, heq'⟩
    · rw [heq'] at heq
      cases Option.some.inj heq
      exact ⟨hL, hN⟩
    · rw [heq'] at heq
      cases Option.some.inj heq
      refine ⟨ledgerOk_update db hL user.uid user hfind' _ (-chargeAmount) _ (by ring), ?_⟩
      exact creditsNonneg_update db hN user.uid _ (sub_nonneg.mpr hc) _
    · rw [heq'] at heq
      cases Option.some.inj heq
      exact ⟨hL, hN⟩

lemma billingCycleStep_preserves_ledger (db : Db) (hL : ledgerOk db)
    (hN : creditsNonneg db) (hibOk : Bool) (srow : ServerRec) :
    ledgerOk (billingCycleStep hibOk db srow)
    ∧ creditsNonneg (billingCycleStep hibOk db srow) := by
  cases hfu : db.findUser srow.userId with
  | none =>
    simp only [billingCycleStep, hfu]
    exact ⟨hL, hN⟩
  | some user =>
    have hwid : user.uid = srow.userId := (findUser_mem_of_eq_some db srow.userId user hfu).2
    have hfind' : db.findUser user.uid = some user := by rw [hwid]; exact hfu
    simp only [billingCycleStep, hfu]
    by_cases hc : billingCost ≤ user.credits
    · rw [if_pos hc]
      refine ⟨ledgerOk_update db hL user.uid user hfind' _ (-billingCost) _ (by ring), ?_⟩
      exact creditsNonneg_update db hN user.uid _ (sub_nonneg.mpr hc) _
    · rw [if_neg hc]
      cases hibOk with
      | false =>
        simp only [Bool.false_eq_true, if_false]
        refine ⟨ledgerOk_update db hL user.uid user hfind' 0 (-user.credits) _ (by ring), ?_⟩
        exact creditsNonneg_update db hN user.uid 0 le_rfl
          ⟨user.uid, -user.credits, TransactionType.HOURLY_CHARGE⟩
      | true =>
        simp only [if_true]
        refine ⟨ledgerOk_update _ hL user.uid user hfind' 0 (-user.credits) _ (by ring), ?_⟩
        exact creditsNonneg_update _ hN user.uid 0 le_rfl
          ⟨user.uid, -user.credits, TransactionType.HOURLY_CHARGE⟩

/-- C2 (counterexample): `add_credits` does not validate the sign of its
amount, so on a consistent database it can drive a user's credits negative:
user 1 starts at 0 with non-negative credits everywhere, and
`add_credits(1, -1)` succeeds and leaves credits at -1 < 0, falsifying
"keeps User.credits non-negative ... with any amount". -/
theorem addCredits_negative_amount_counterexample :
    creditsNonneg dbC2
    ∧ ledgerOk dbC2
    ∧ (addCredits dbC2 1 (-1)).1 = true
    ∧ ∃ x, (addCredits dbC2 1 (-1)).2.findUser 1 = some x ∧ x.credits < 0 := by
  refine ⟨?_, ?_, rfl, ⟨1, (0 : ℚ) + (-1)⟩, rfl, by norm_num⟩
  · intro u hu
    simp only [dbC2, List.mem_singleton] at hu
    subst hu
    norm_num
  · intro u hu
    simp only [dbC2, List.mem_singleton] at hu
    subst hu
    simp [Db.txnsFor, dbC2]

/-- C2 (amended): the billing debit (both in the lifecycle sweep and in the
billing daemon), the out-of-credits handling, and `add_credits` each append
exactly one Transaction whose amount equals the credit delta and preserve
Σ(transactions) = credits; they also keep credits non-negative — for
`add_credits` provided the amount is non-negative (a negative amount can
drive credits negative). -/
theorem credit_operations_preserve_ledger (db : Db) (hL : ledgerOk db)
    (hN : creditsNonneg db) :
    (∀ uid amount, ledgerOk (addCredits db uid amount).2)
    ∧ (∀ uid amount, 0 ≤ amount → creditsNonneg (addCredits db uid amount).2)
    ∧ (∀ uid amount user, db.findUser uid = some user →
        (addCredits db uid amount).2.txnsFor uid
            = db.txnsFor uid ++ [⟨uid, amount, TransactionType.DEPOSIT⟩]
          ∧ (addCredits db uid amount).2.findUser uid
            = some { user with credits := user.credits + amount })
    ∧ (∀ now srow db', billStep now (some db) srow = some db' →
        ledgerOk db' ∧ creditsNonneg db')
    ∧ (∀ now srow user, db.findUser srow.userId = some user →
        chargeAmount ≤ user.credits →
        ∃ db', billStep now (some db) srow = some db'
          ∧ db'.txnsFor user.uid
              = db.txnsFor user.uid
                  ++ [⟨user.uid, -chargeAmount, TransactionType.HOURLY_CHARGE⟩]
          ∧ db'.findUser user.uid
              = some { user with credits := user.credits - chargeAmount })
    ∧ (∀ hibOk srow, ledgerOk (billingCycleStep hibOk db srow)
        ∧ creditsNonneg (billingCycleStep hibOk db srow)) := by
  refine ⟨?_, ?_, ?_, ?_, ?_, ?_⟩
  · intro uid amount
    cases hfu : db.findUser uid with
    | none =>
      simp only [addCredits, hfu]
      exact hL
    | some user =>
      simp only [addCredits, hfu]
      exact ledgerOk_update db hL uid user hfu _ amount _ rfl
  · intro uid amount hpos
    cases hfu : db.findUser uid with
    | none =>
      simp only [addCredits, hfu]
      exact hN
    | some user =>
      simp only [addCredits, hfu]
      have huser0 : 0 ≤ user.credits := hN user (findUser_mem_of_eq_some db uid user hfu).1
      exact creditsNonneg_update db hN uid _ (add_nonneg huser0 hpos) _
  · intro uid amount user hfu
    simp only [addCredits, hfu]
    constructor
    · rw [txnsFor_addTxn, txnsFor_setCredits]
      simp
    · rw [findUser_addTxn, findUser_setCredits, hfu]
      have hueq : user.uid = uid := (findUser_mem_of_eq_some db uid user hfu).2
      simp [hueq]
  · intro now srow db' heq
    exact billStep_preserves_ledger db hL hN now srow db' heq
  · intro now srow user hfu hc
    have hwid : user.uid = srow.userId := (findUser_mem_of_eq_some db srow.userId user hfu).2
    rcases billStep_cases now db srow user hfu with ⟨h0, _⟩ | ⟨_, heq'⟩ | ⟨_, hlt2, _⟩
    · exact absurd hc (not_le.mpr (lt_of_le_of_lt h0 (by unfold chargeAmount; norm_num)))
    · refine ⟨_, heq', ?_, ?_⟩
      · rw [txnsFor_addTxn, txnsFor_setCredits]
        simp
      · rw [findUser_addTxn, findUser_setCredits]
        have hfind' : db.findUser user.uid = some user := by rw [hwid]; exact hfu
        rw [hfind']
        simp
    · exact absurd hc (not_le.mpr hlt2)
  · intro hibOk srow
    exact billingCycleStep_preserves_ledger db hL hN hibOk srow

theorem credit_operations_preserve_ledger_witness :
    ledgerOk dbC2 ∧ creditsNonneg dbC2 ∧ ledgerOk (addCredits dbC2 1 3).2 := by
  have hL : ledgerOk dbC2 := by
    intro u hu
    simp only [dbC2, List.mem_singleton] at hu
    subst hu
    simp [Db.txnsFor, dbC2]
  have hN : creditsNonneg dbC2 := by
    intro u hu
    simp only [dbC2, List.mem_singleton] at hu
    subst hu
    norm_num
  exact ⟨hL, hN, (credit_operations_preserve_ledger dbC2 hL hN).1 1 3⟩

lemma containers_ensureNetwork (e : Engine) (n : String) :
    (e.ensureNetwork n).containers = e.containers := by
  unfold Engine.ensureNetwork
  split <;> rfl

lemma containers_buildProxyImage (e : Engine) :
    e.buildProxyImage.containers = e.containers := by
  unfold Engine.buildProxyImage
  split <;> rfl

lemma containers_ensureVolume (e : Engine) (v : String) :
    (e.ensureVolume v).containers = e.containers := by
  unfold Engine.ensureVolume
  split <;> rfl

lemma hasContainer_congr (e e' : Engine) (h : e.containers = e'.containers) (c : String) :
    e.hasContainer c = e'.hasContainer c := by
  unfold Engine.hasContainer
  rw [h]

lemma hasNetwork_congr (e e' : Engine) (h : e.networks = e'.networks) (n : String) :
    e.hasNetwork n = e'.hasNetwork n := by
  unfold Engine.hasNetwork
  rw [h]

lemma hasContainer_addContainer (e : Engine) (n c : String) (st : ContainerStatus) :
    (e.addContainer n st).hasContainer c = ((n == c) || e.hasContainer c) := by
  unfold Engine.addContainer Engine.hasContainer
  by_cases h : (n == c) = true <;> simp [List.find?, h]

lemma gameName_ne_proxyName (s : String) : ("game-" ++ s) ≠ ("proxy-" ++ s) := by
  intro h
  have h2 : ("game-" ++ s).data = ("proxy-" ++ s).data := congrArg String.data h
  rw [String.data_append, String.data_append] at h2
  have h3 : ('g' :: 'a' :: 'm' :: 'e' :: '-' :: s.data)
      = ('p' :: 'r' :: 'o' :: 'x' :: 'y' :: '-' :: s.data) := h2
  simp at h3

/-- C5 (counterexample): an engine in which `game-7` exists but `proxy-7` does
not.  The claim says deploy must refuse without creating any container, but
deploy's sequential `get(game); get(proxy)` check passes (the second `get`
raises NotFound, which is swallowed), a proxy container is created and
started, and only then does deploy fail on the game-container name conflict. -/
theorem deploy_refuses_only_when_both_exist_counterexample :
    deployEngineC5.hasContainer "game-7" = true
    ∧ deployEngineC5.hasContainer "proxy-7" = false
    ∧ (deploy deployEngineC5 7).1 = false
    ∧ (deploy deployEngineC5 7).2.hasContainer "proxy-7" = true := by
  decide

/-- C5 (amended): the early already-exists refusal fires only when both
`game-{id}` and `proxy-{id}` exist; then — and when only the proxy container
exists (the proxy `run` hits the name conflict) — deploy returns an error
without having created any container; but when only the game container
exists, deploy starts a fresh proxy container and only then errors out on the
game-container name conflict. -/
theorem deploy_exists_check_behavior (e : Engine) (sid : Nat) :
    (e.hasContainer ("game-" ++ toString sid) = true →
      e.hasContainer ("proxy-" ++ toString sid) = true →
      (deploy e sid).1 = false ∧ (deploy e sid).2.containers = e.containers)
    ∧ (e.hasContainer ("game-" ++ toString sid) = false →
      e.hasContainer ("proxy-" ++ toString sid) = true →
      (deploy e sid).1 = false ∧ (deploy e sid).2.containers = e.containers)
    ∧ (e.hasContainer ("game-" ++ toString sid) = true →
      e.hasContainer ("proxy-" ++ toString sid) = false →
      (deploy e sid).1 = false
      ∧ (deploy e sid).2.containers
          = ("proxy-" ++ toString sid, ContainerStatus.running) :: e.containers) := by
  have h2c : ((e.ensureNetwork ("net-" ++ toString sid)).buildProxyImage).containers
      = e.containers := by
    rw [containers_buildProxyImage, containers_ensureNetwork]
  have hg2 : ∀ c, ((e.ensureNetwork ("net-" ++ toString sid)).buildProxyImage).hasContainer c
      = e.hasContainer c := fun c =>
    hasContainer_congr _ _ h2c c
  refine ⟨?_, ?_, ?_⟩
  · intro hg hp
    have hcond : (deploy e sid) = (false, (e.ensureNetwork ("net-" ++ toString sid)).buildProxyImage) := by
      unfold deploy
      rw [if_pos]
      rw [hg2, hg2, hg, hp]
      rfl
    rw [hcond]
    exact ⟨rfl, h2c⟩
  · intro hg hp
    have hcond : (deploy e sid) = (false, (e.ensureNetwork ("net-" ++ toString sid)).buildProxyImage) := by
      unfold deploy
      rw [if_neg, if_pos]
      · rw [hg2, hp]
      · rw [hg2, hg2, hg, hp]
        simp
    rw [hcond]
    exact ⟨rfl, h2c⟩
  · intro hg hp
    have hne : (("proxy-" ++ toString sid) == ("game-" ++ toString sid)) = false :=
      beq_eq_false_iff_ne.mpr (Ne.symm (gameName_ne_proxyName (toString sid)))
    have hcheck :
        ((((e.ensureNetwork ("net-" ++ toString sid)).buildProxyImage).addContainer
            ("proxy-" ++ toString sid) ContainerStatus.running).ensureVolume
            ("game-data-" ++ toString sid)).hasContainer ("game-" ++ toString sid) = true := by
      rw [hasContainer_congr _ _ (containers_ensureVolume _ _) _,
        hasContainer_addContainer, hne, hg2, hg]
      rfl
    have hcond : (deploy e sid)
        = (false, (((e.ensureNetwork ("net-" ++ toString sid)).buildProxyImage).addContainer
            ("proxy-" ++ toString sid) ContainerStatus.running).ensureVolume
            ("game-data-" ++ toString sid)) := by
      unfold deploy
      rw [if_neg, if_neg, if_pos hcheck]
      · rw [hg2, hp]
        simp
      · rw [hg2, hg2, hg, hp]
        simp
    rw [hcond]
    refine ⟨rfl, ?_⟩
    rw [containers_ensureVolume]
    show ("proxy-" ++ toString sid, ContainerStatus.running)
        :: ((e.ensureNetwork ("net-" ++ toString sid)).buildProxyImage).containers
      = ("proxy-" ++ toString sid, ContainerStatus.running) :: e.containers
    rw [h2c]

theorem deploy_exists_check_behavior_witness :
    (deploy deployEngineBoth 3).1 = false
    ∧ (deploy deployEngineBoth 3).2.containers = deployEngineBoth.containers := by
  exact (deploy_exists_check_behavior deployEngineBoth 3).1 (by decide) (by decide)

lemma find?_filter_none {α : Type} (p q : α → Bool) (l : List α)
    (h : ∀ a ∈ l, q a = true → p a = false) : (l.filter q).find? p = none := by
  rw [List.find?_eq_none]
  intro x hx
  have hm := List.mem_filter.mp hx
  rw [h x hm.1 hm.2]
  simp

lemma find?_filter_of_none {α : Type} (p q : α → Bool) (l : List α)
    (h : l.find? p = none) : (l.filter q).find? p = none := by
  rw [List.find?_eq_none] at h ⊢
  intro x hx
  exact h x (List.mem_filter.mp hx).1

lemma isSome_false_iff {α : Type} (o : Option α) : o.isSome = false ↔ o = none := by
  cases o <;> simp

lemma hasContainer_removeContainer_self (e : Engine) (c : String) :
    (e.removeContainer c).hasContainer c = false := by
  unfold Engine.removeContainer Engine.hasContainer
  rw [find?_filter_none]
  · rfl
  · intro a _ hq
    have : ¬(a.1 == c) = true := by
      simpa using hq
    simpa using this

lemma hasContainer_removeContainer_of_false (e : Engine) (c c' : String)
    (h : e.hasContainer c' = false) : (e.removeContainer c).hasContainer c' = false := by
  unfold Engine.hasContainer at h ⊢
  unfold Engine.removeContainer
  rw [isSome_false_iff] at h
  rw [find?_filter_of_none _ _ _ h]
  rfl

lemma hasNetwork_removeNetwork_self (e : Engine) (n : String) :
    (e.removeNetwork n).hasNetwork n = false := by
  unfold Engine.removeNetwork Engine.hasNetwork
  rw [find?_filter_none]
  · rfl
  · intro a _ hq
    have : ¬(a == n) = true := by
      simpa using hq
    simpa using this

lemma hasVolume_removeVolume_self (e : Engine) (v : String) :
    (e.removeVolume v).hasVolume v = false := by
  unfold Engine.removeVolume Engine.hasVolume
  rw [find?_filter_none]
  · rfl
  · intro a _ hq
    have : ¬(a == v) = true := by
      simpa using hq
    simpa using this

lemma removeContainerStep_noRaise (e : Engine) (cid : Option String) :
    ∃ e', removeContainerStep false e cid = Except.ok e'
      ∧ (∀ c, cid = some c → e'.hasContainer c = false)
      ∧ (∀ c, e.hasContainer c = false → e'.hasContainer c = false)
      ∧ e'.networks = e.networks ∧ e'.volumes = e.volumes := by
  cases cid with
  | none =>
    exact ⟨e, rfl, fun c hc => absurd hc (by simp), fun c hc => hc, rfl, rfl⟩
  | some c0 =>
    by_cases h : e.hasContainer c0 = true
    · refine ⟨e.removeContainer c0, ?_, ?_, ?_, rfl, rfl⟩
      · simp only [removeContainerStep, h, if_true, Bool.false_eq_true, if_false]
      · intro c hc
        cases Option.some.inj hc
        exact hasContainer_removeContainer_self e c0
      · intro c hc
        exact hasContainer_removeContainer_of_false e c0 c hc
    · have h' : e.hasContainer c0 = false := by simpa using h
      refine ⟨e, ?_, ?_, fun c hc => hc, rfl, rfl⟩
      · simp only [removeContainerStep, h', Bool.false_eq_true, if_false]
      · intro c hc
        cases Option.some.inj hc
        exact h'

lemma removeNetworkStep_noRaise (e : Engine) (name : Option String) :
    ∃ e', removeNetworkStep false e name = Except.ok e'
      ∧ (∀ n, name = some n → e'.hasNetwork n = false)
      ∧ e'.containers = e.containers ∧ e'.volumes = e.volumes := by
  cases name with
  | none =>
    exact ⟨e, rfl, fun n hn => absurd hn (by simp), rfl, rfl⟩
  | some n0 =>
    by_cases h : e.hasNetwork n0 = true
    · refine ⟨e.removeNetwork n0, ?_, ?_, rfl, rfl⟩
      · simp only [removeNetworkStep, h, if_true, Bool.false_eq_true, if_false]
      · intro n hn
        cases Option.some.inj hn
        exact hasNetwork_removeNetwork_self e n0
    · have h' : e.hasNetwork n0 = false := by simpa using h
      refine ⟨e, ?_, ?_, rfl, rfl⟩
      · simp only [removeNetworkStep, h', Bool.false_eq_true, if_false]
      · intro n hn
        cases Option.some.inj hn
        exact h'

lemma removeVolumeStep_noRaise (e : Engine) (v : String) :
    ∃ e', removeVolumeStep false e v = Except.ok e'
      ∧ e'.hasVolume v = false
      ∧ e'.containers = e.containers ∧ e'.networks = e.networks := by
  by_cases h : e.hasVolume v = true
  · refine ⟨e.removeVolume v, ?_, hasVolume_removeVolume_self e v, rfl, rfl⟩
    simp only [removeVolumeStep, h, if_true, Bool.false_eq_true, if_false]
  · have h' : e.hasVolume v = false := by simpa using h
    refine ⟨e, ?_, h', rfl, rfl⟩
    simp only [removeVolumeStep, h', Bool.false_eq_true, if_false]

/-- C6 (counterexample): all four resources of server 9 exist, and removing
the game container fails with a non-NotFound engine error.  The outer
`except Exception` returns False immediately: the proxy container, the
network and the volume are all still present, so the remaining removals were
not attempted — falsifying "all four are attempted even when an earlier one
fails with an error other than absence". -/
theorem delete_aborts_after_first_error_counterexample :
    (deleteServer raisesGame deleteEngineC6 bundleC6).1 = false
    ∧ (deleteServer raisesGame deleteEngineC6 bundleC6).2 = deleteEngineC6
    ∧ deleteEngineC6.hasContainer "proxy-9" = true
    ∧ deleteEngineC6.hasNetwork "net-9" = true
    ∧ deleteEngineC6.hasVolume "game-data-9" = true := by
  decide

/-- C6 (amended): absence of any of the four resources is never treated as an
error — with no engine failures, delete removes whatever exists of the game
container, proxy container, network and volume and returns True; but when an
earlier removal fails with a non-absence error the outer handler aborts
delete immediately (shown for the first, game-container, step): it returns
False with the engine untouched and the remaining removals unattempted. -/
theorem delete_tolerates_absence_but_error_aborts (e : Engine) (b : Bundle) :
    ((deleteServer (fun _ => false) e b).1 = true
      ∧ (∀ cid, b.gameContainerId = some cid →
          (deleteServer (fun _ => false) e b).2.hasContainer cid = false)
      ∧ (∀ cid, b.proxyContainerId = some cid →
          (deleteServer (fun _ => false) e b).2.hasContainer cid = false)
      ∧ (∀ n, b.networkName = some n →
          (deleteServer (fun _ => false) e b).2.hasNetwork n = false)
      ∧ (deleteServer (fun _ => false) e b).2.hasVolume
          ("game-data-" ++ toString b.sid) = false)
    ∧ (∀ cid, b.gameContainerId = some cid → e.hasContainer cid = true →
        ∀ raises : DelRes → Bool, raises DelRes.game = true →
          deleteServer raises e b = (false, e)) := by
  constructor
  · obtain ⟨e1, hs1, hg1, hpres1, hnet1, hvol1⟩ := removeContainerStep_noRaise e b.gameContainerId
    obtain ⟨e2, hs2, hp2, hpres2, hnet2, hvol2⟩ := removeContainerStep_noRaise e1 b.proxyContainerId
    obtain ⟨e3, hs3, hn3, hcont3, hvol3⟩ := removeNetworkStep_noRaise e2 b.networkName
    obtain ⟨e4, hs4, hv4, hcont4, hnet4⟩ :=
      removeVolumeStep_noRaise e3 ("game-data-" ++ toString b.sid)
    have hrun : deleteServer (fun _ => false) e b = (true, e4) := by
      simp only [deleteServer, hs1, hs2, hs3, hs4]
    rw [hrun]
    have hc43 : ∀ c, e4.hasContainer c = e3.hasContainer c :=
      fun c => hasContainer_congr _ _ hcont4 c
    have hc32 : ∀ c, e3.hasContainer c = e2.hasContainer c :=
      fun c => hasContainer_congr _ _ hcont3 c
    refine ⟨rfl, ?_, ?_, ?_, hv4⟩
    · intro c hc
      rw [hc43, hc32]
      exact hpres2 c (hg1 c hc)
    · intro c hc
      rw [hc43, hc32]
      exact hp2 c hc
    · intro n hn
      rw [hasNetwork_congr _ _ hnet4 n]
      exact hn3 n hn
  · intro cid hcid hhas raises hraise
    unfold deleteServer
    rw [hcid]
    simp only [removeContainerStep, hhas, if_true, hraise]

theorem delete_tolerates_absence_but_error_aborts_witness :
    (deleteServer (fun _ => false) deleteEngineC6 bundleC6).1 = true
    ∧ (deleteServer (fun _ => false) deleteEngineC6 bundleC6).2.hasContainer "game-9" = false := by
  have h := delete_tolerates_absence_but_error_aborts deleteEngineC6 bundleC6
  exact ⟨h.1.1, h.1.2.1 "game-9" rfl⟩

/-- C4: the capped-buffering behaviour the claim describes does not exist in
the program.  The first statement of the hold branch,
`client_writer.set_tcp_nodelay(False)` (main.py line 101), raises
`AttributeError` — `asyncio.StreamWriter` has no such method — and the
generic `except Exception` at line 139 closes the client.  So every TCP
session that enters the WAKING (hold) state is closed immediately with an
empty buffer, for every timeout and every client-input trace — including the
concrete one where the client sends 73728 bytes during the hold window.
Nothing is ever buffered, no cap check exists (the unreachable loop contains
none), and no session reaches BRIDGING. -/
theorem hold_session_closes_immediately :
    (∀ (timeout : Nat) (events : List HoldInput),
      holdSession timeout events = SessionOutcome.closedError [])
    ∧ holdSession 60 c4Trace = SessionOutcome.closedError []
    ∧ (∀ (timeout : Nat) (events : List HoldInput) (buf : List UInt8),
        holdSession timeout events ≠ SessionOutcome.bridging buf) := by
  refine ⟨fun _ _ => rfl, rfl, ?_⟩
  intro timeout events buf h
  exact SessionOutcome.noConfusion h

/-- C7: on the first datagram from a new client address with the target
reachable, `flush_buffer` only schedules endpoint creation, so
`relay.target_transport` is still `None` when the handler immediately calls
`relay.target_transport.sendto(data, ...)`: the handler raises
AttributeError and the datagram is not forwarded to any backend socket. -/
theorem udp_first_datagram_reachable_raises :
    (∀ r : UDPRelayState, r.targetTransport = none →
      (flushBuffer r).targetTransport = none)
    ∧ handleUdpDatagram true [] 7 [1, 2, 3] = Except.error "AttributeError" := by
  constructor
  · intro r h
    unfold flushBuffer
    rw [h]
  · rfl

end Gassorp
